import Mathlib

/-!
Shallow embedding of the Inventory Management Service (Products model and
REST routes) for specification checking.

The embedding follows `src/service/models.py` and `src/service/routes.py`:

* Python values that cross the JSON/dict boundary are modelled by `PyVal`.
* Python's `decimal.Decimal` (finite values) is modelled by `Dec`, a
  mantissa/exponent pair; `decToString` implements the `to-sci-string`
  algorithm used by `str(Decimal)`, and `parseDecimal` the numeric-literal
  grammar accepted by the `Decimal` constructor (finite literals; the
  special forms `NaN`/`Infinity` are out of scope and modelled as parse
  failures, as no claim depends on them).
* Python exceptions are modelled by `PyError`; the `try/except` clauses of
  `Products.deserialize` are modelled by `deserializeExcept`, which maps
  exactly the caught exception classes and lets all others through.
* The transactional store (SQLAlchemy session over the declared table
  schema `String(63)`, `String(256)`, `Numeric(10, 2)`) is modelled by
  `DB`, a list of rows plus an autoincrement counter; `storeCheck` models
  the DDL constraints the store enforces on a write.  The scale rounding
  a relational store may apply to `Numeric` values is not modelled, as no
  claim depends on it.
* Flask request handling is modelled by `HttpRequest` and route outcomes
  by `RouteOutcome`; `abort(code, msg)` becomes `.httpAbort`, an exception
  escaping the handler becomes `.exn`.  `request.get_json()` is modelled
  by `get_json`, including the framework's own media-type gate: when the
  request mimetype is not JSON, current Flask raises
  `UnsupportedMediaType` (415) from inside `get_json` (older versions map
  this case to 400 instead; either way the parse never yields a body).
  `jsonBody` is the decoded JSON body `get_json` returns when the
  media-type gate passes; failures of the JSON decoding itself (400) are
  not modelled, as no claim depends on them.
-/

namespace ProductsService

/-- Python-level values at the JSON / dict boundary. -/
inductive PyVal where
  | pyNone
  | pyStr (s : String)
  | pyInt (n : Int)
  | pyFloat (m : Int) (e : Int)
  | pyDict (entries : List (String × PyVal))
deriving Repr

/-- The exact rational value of a binary float `m * 2 ^ e` (every binary64
value has this form). -/
def floatVal (m e : Int) : ℚ :=
  if 0 ≤ e then (m : ℚ) * 2 ^ e.toNat else (m : ℚ) / 2 ^ (-e).toNat

/-- Python's `decimal.Decimal` (finite values): value is `man * 10 ^ exp`. -/
structure Dec where
  man : Int
  exp : Int
deriving Repr, DecidableEq

/-- The exact rational value denoted by a `Dec`. -/
def Dec.toRat (d : Dec) : ℚ :=
  if 0 ≤ d.exp then (d.man : ℚ) * 10 ^ d.exp.toNat
  else (d.man : ℚ) / 10 ^ (-d.exp).toNat

/-- Python exceptions relevant to the service. -/
inductive PyError where
  | typeError (msg : String)
  | keyError (key : String)
  | attributeError (msg : String)
  | invalidOperation
  | dataValidationError (msg : String)
deriving Repr, DecidableEq

/-- Whether an exception is the model layer's `DataValidationError`. -/
def PyError.isDataValidationError : PyError → Bool
  | .dataValidationError _ => true
  | _ => false

/-! ### Decimal printing (`str(Decimal)`) -/

/-- The character for a single decimal digit. -/
def digitChar (d : Nat) : Char := Char.ofNat (48 + d)

/-- Is `c` an ASCII digit? -/
def isDigitChar (c : Char) : Bool := 48 ≤ c.toNat && c.toNat ≤ 57

/-- Numeric value of an ASCII digit character. -/
def digitVal (c : Char) : Nat := c.toNat - 48

/-- Decimal digit characters of a natural number, most significant first
(`"0"` for zero). -/
def natDigitChars (n : Nat) : List Char :=
  if n = 0 then ['0'] else ((Nat.digits 10 n).reverse).map digitChar

/-- Digit characters for a (signed) exponent, as Python prints it
(`E+3`, `E-7`). -/
def expChars (k : Int) : List Char :=
  (if k < 0 then '-' else '+') :: natDigitChars k.natAbs

/-- `str` of a finite `Decimal`: the `to-sci-string` algorithm.  With
`leftdigits` the position of the decimal point relative to the digit
string: plain notation when `exp ≤ 0` and `leftdigits > -6`, scientific
notation (with one integer digit) otherwise. -/
def decToString (d : Dec) : String :=
  let ds := natDigitChars d.man.natAbs
  let leftdigits : Int := d.exp + ds.length
  let body : List Char :=
    if d.exp ≤ 0 ∧ -6 < leftdigits then
      if d.exp = 0 then ds
      else if 0 < leftdigits then
        ds.take leftdigits.toNat ++ '.' :: ds.drop leftdigits.toNat
      else
        '0' :: '.' :: (List.replicate (-leftdigits).toNat '0' ++ ds)
    else
      ds.take 1 ++
        (if ds.length ≤ 1 then [] else '.' :: ds.drop 1) ++
        ('E' :: expChars (leftdigits - 1))
  String.mk ((if d.man < 0 then ['-'] else []) ++ body)

/-! ### Decimal parsing (the `Decimal(str)` constructor) -/

/-- Split a character list into its maximal leading run of digits and the
rest. -/
def spanDigits : List Char → List Char × List Char
  | [] => ([], [])
  | c :: cs =>
    if isDigitChar c then
      let p := spanDigits cs
      (c :: p.1, p.2)
    else ([], c :: cs)

/-- The natural number denoted by a list of digit characters (leading
zeros allowed; `0` for the empty list). -/
def digitsVal (cs : List Char) : Nat :=
  cs.foldl (fun a c => 10 * a + digitVal c) 0

/-- Parse the digit string of an exponent part (after an optional sign). -/
def parseExpDigits (cs : List Char) : Option Int :=
  let p := spanDigits cs
  if p.1.isEmpty then none
  else match p.2 with
    | [] => some (digitsVal p.1 : Int)
    | _ :: _ => none

/-- Parse an exponent part (after the `e`/`E`). -/
def parseExpPart : List Char → Option Int
  | [] => none
  | c :: cs =>
    if c = '-' then (parseExpDigits cs).map (fun n => -n)
    else if c = '+' then parseExpDigits cs
    else parseExpDigits (c :: cs)

/-- Parse what follows the decimal point, given the integer-part digits. -/
def parseAfterPoint (intDigits cs : List Char) : Option Dec :=
  let p := spanDigits cs
  let allDigits := intDigits ++ p.1
  if allDigits.isEmpty then none
  else
    match p.2 with
    | [] => some ⟨(digitsVal allDigits : Int), -(p.1.length : Int)⟩
    | c :: rest =>
      if c = 'e' ∨ c = 'E' then
        (parseExpPart rest).map (fun ex => ⟨(digitsVal allDigits : Int), ex - p.1.length⟩)
      else none

/-- Parse an unsigned finite decimal literal. -/
def parseUnsigned (cs : List Char) : Option Dec :=
  let p := spanDigits cs
  match p.2 with
  | [] => if p.1.isEmpty then none else some ⟨(digitsVal p.1 : Int), 0⟩
  | c :: rest =>
    if c = '.' then parseAfterPoint p.1 rest
    else if c = 'e' ∨ c = 'E' then
      if p.1.isEmpty then none
      else (parseExpPart rest).map (fun ex => ⟨(digitsVal p.1 : Int), ex⟩)
    else none

/-- Parse a finite decimal literal with optional sign: the strings the
`Decimal` constructor accepts (a failure models `decimal.InvalidOperation`). -/
def parseDecimal (s : String) : Option Dec :=
  match s.data with
  | [] => none
  | c :: cs =>
    if c = '-' then (parseUnsigned cs).map (fun d => ⟨-d.man, d.exp⟩)
    else if c = '+' then parseUnsigned cs
    else parseUnsigned (c :: cs)

/-! ### The `Products` model (`src/service/models.py`) -/

/-- An in-memory `Products` instance.  An unpersisted `Products()` has all
columns `None`. -/
structure Products where
  id : Option Int := none
  name : PyVal := .pyNone
  description : PyVal := .pyNone
  price : Option Dec := none
deriving Repr

/-- A persisted row of the `products` table. -/
structure Row where
  id : Int
  name : PyVal
  description : PyVal
  price : Option Dec
deriving Repr

/-- The transactional store: the `products` table plus the autoincrement
counter for the primary key. -/
structure DB where
  rows : List Row
  nextId : Int
deriving Repr

/-- Python subscripting `data[key]`: dict lookup, `KeyError` on a missing
key, `TypeError` on a non-dict (the messages are CPython's). -/
def getItem (data : PyVal) (key : String) : Except PyError PyVal :=
  match data with
  | .pyDict entries =>
    match entries.lookup key with
    | some v => .ok v
    | none => .error (.keyError key)
  | .pyNone => .error (.typeError "'NoneType' object is not subscriptable")
  | .pyInt _ => .error (.typeError "'int' object is not subscriptable")
  | .pyFloat _ _ => .error (.typeError "'float' object is not subscriptable")
  | .pyStr _ => .error (.typeError "string indices must be integers, not 'str'")

/-- `Decimal(float)`: the exact value of the binary float `m * 2 ^ e` as
a decimal: `m / 2 ^ k = m * 5 ^ k / 10 ^ k`. -/
def floatToDec (m e : Int) : Dec :=
  if 0 ≤ e then ⟨m * 2 ^ e.toNat, 0⟩ else ⟨m * 5 ^ (-e).toNat, e⟩

/-- The `Decimal(...)` constructor applied to a Python value: exact for
`int` and `float`, grammar-checked for `str` (`InvalidOperation` on
failure), `TypeError` for unsupported types. -/
def pyDecimal (v : PyVal) : Except PyError Dec :=
  match v with
  | .pyStr s =>
    match parseDecimal s with
    | some d => .ok d
    | none => .error .invalidOperation
  | .pyInt n => .ok ⟨n, 0⟩
  | .pyFloat m e => .ok (floatToDec m e)
  | .pyNone => .error (.typeError "conversion from NoneType to Decimal is not supported")
  | .pyDict _ => .error (.typeError "conversion from dict to Decimal is not supported")

/-- The `except` clauses of `Products.deserialize`: `AttributeError`,
`KeyError` and `TypeError` are re-raised as `DataValidationError` with the
messages from the source; any other exception propagates unchanged. -/
def deserializeExcept (e : PyError) : PyError :=
  match e with
  | .attributeError m => .dataValidationError ("Invalid attribute: " ++ m)
  | .keyError k => .dataValidationError ("Invalid Products: missing " ++ k)
  | .typeError m =>
    .dataValidationError ("Invalid Products: body of request contained bad or no data " ++ m)
  | e => e

/-- `Products.deserialize(self, data)`: assigns `name`, `description`,
`price` in place, in that order; on an exception the instance keeps the
assignments already made, which the error value records. -/
def Products.deserialize (self : Products) (data : PyVal) :
    Except (PyError × Products) Products :=
  match getItem data "name" with
  | .error e => .error (deserializeExcept e, self)
  | .ok nv =>
    let s1 : Products := { self with name := nv }
    match getItem data "description" with
    | .error e => .error (deserializeExcept e, s1)
    | .ok dv =>
      let s2 : Products := { s1 with description := dv }
      match getItem data "price" with
      | .error e => .error (deserializeExcept e, s2)
      | .ok pv =>
        match pyDecimal pv with
        | .error e => .error (deserializeExcept e, s2)
        | .ok d => .ok { s2 with price := some d }

/-- `str()` of a price column value (`str(None)` is `"None"`). -/
def priceStr : Option Dec → String
  | some d => decToString d
  | none => "None"

/-- The `id` field as a JSON value. -/
def idVal : Option Int → PyVal
  | some i => .pyInt i
  | none => .pyNone

/-- `Products.serialize(self)`: the dictionary with the four columns,
price rendered as its exact decimal string. -/
def Products.serialize (self : Products) : PyVal :=
  .pyDict
    [("id", idVal self.id),
     ("name", self.name),
     ("description", self.description),
     ("price", .pyStr (priceStr self.price))]

/-- The row an instance would occupy under primary key `i`. -/
def Products.toRow (self : Products) (i : Int) : Row :=
  ⟨i, self.name, self.description, self.price⟩

/-- Store-side length check for a varchar column of the declared schema
(`name String(63)`, `description String(256)`); `price` is
`Numeric(10, 2)`.  `storeCheck` returns the store's error message when a
written row is rejected. -/
def varcharTooLong (v : PyVal) (bound : Nat) : Bool :=
  match v with
  | .pyStr s => bound < s.length
  | _ => false

/-- Does a price value overflow `Numeric(10, 2)` (absolute value at least
`10 ^ 8`)?  Stated on the mantissa/exponent pair by integer arithmetic:
`|man| * 10 ^ exp ≥ 10 ^ 8`. -/
def numericOverflow (p : Option Dec) : Bool :=
  match p with
  | some d =>
    if 0 ≤ d.exp then 10 ^ 8 ≤ d.man.natAbs * 10 ^ d.exp.toNat
    else 10 ^ 8 * 10 ^ (-d.exp).toNat ≤ d.man.natAbs
  | none => false

/-- The store's constraint verdict on a written row (see above). -/
def storeCheck (r : Row) : Option String :=
  if varcharTooLong r.name 63 then
    some "value too long for type character varying(63)"
  else if varcharTooLong r.description 256 then
    some "value too long for type character varying(256)"
  else if numericOverflow r.price then
    some "numeric field overflow"
  else none

/-- `Products.create(self)`: forces `self.id = None`, inserts under the
store's generated key inside one transaction; on a store failure, rolls
back (the store is unchanged) and raises `DataValidationError` wrapping
the store's message. -/
def Products.create (self : Products) (db : DB) :
    Except (PyError × Products × DB) (Products × DB) :=
  let self : Products := { self with id := none }
  let newRow := self.toRow db.nextId
  match storeCheck newRow with
  | some msg => .error (.dataValidationError msg, self, db)
  | none =>
    .ok ({ self with id := some db.nextId },
         { rows := db.rows ++ [newRow], nextId := db.nextId + 1 })

/-- `Products.update(self)`: commits the pending change to the row with
the instance's id in one transaction; a commit with nothing pending
succeeds as a no-op; on a store failure, rolls back and raises
`DataValidationError` wrapping the store's message. -/
def Products.update (self : Products) (db : DB) :
    Except (PyError × DB) DB :=
  match self.id with
  | none => .ok db
  | some i =>
    if db.rows.any (fun r => r.id = i) then
      let newRow := self.toRow i
      match storeCheck newRow with
      | some msg => .error (.dataValidationError msg, db)
      | none => .ok { db with rows := db.rows.map (fun r => if r.id = i then newRow else r) }
    else .ok db

/-- `Products.delete(self)`: removes the instance's row in one
transaction; deleting an instance that was never persisted is a session
error, caught and re-raised as `DataValidationError` after rollback. -/
def Products.delete (self : Products) (db : DB) :
    Except (PyError × DB) DB :=
  match self.id with
  | none => .error (.dataValidationError "Instance is not persisted", db)
  | some i => .ok { db with rows := db.rows.filter (fun r => r.id ≠ i) }

/-- `Products.all()`: every persisted row. -/
def Products.allRows (db : DB) : List Row := db.rows

/-- `Products.find(by_id)`: primary-key lookup, `None` when absent. -/
def Products.find (db : DB) (by_id : Int) : Option Row :=
  db.rows.find? (fun r => r.id = by_id)

/-- SQL equality of the `name` varchar column against a string literal
(`NULL` and non-string values never match). -/
def nameMatches (v : PyVal) (name : String) : Bool :=
  match v with
  | .pyStr s => s = name
  | _ => false

/-- `Products.find_by_name(name)`: all rows whose `name` column equals
the argument. -/
def Products.find_by_name (db : DB) (name : String) : List Row :=
  db.rows.filter (fun r => nameMatches r.name name)

/-! ### The route layer (`src/service/routes.py`) -/

/-- An HTTP request as the handlers see it: the header list and the parsed
JSON body (`request.get_json()`; framework-side parsing is outside the
embedded code). -/
structure HttpRequest where
  headers : List (String × String)
  jsonBody : PyVal

/-- What a handler produces: a normal response (status, JSON body,
optional `Location` header), an `abort(status, message)`, or an exception
escaping the handler. -/
inductive RouteOutcome where
  | ok (status : Nat) (body : PyVal) (location : Option String)
  | httpAbort (status : Nat) (message : String)
  | exn (e : PyError)
deriving Repr

/-- `check_content_type(content_type)`: aborts 415 when the header is
missing or differs from the expected media type. -/
def check_content_type (req : HttpRequest) (content_type : String) :
    Option (Nat × String) :=
  match req.headers.lookup "Content-Type" with
  | none => some (415, "Content-Type must be " ++ content_type)
  | some v =>
    if v = content_type then none
    else some (415, "Content-Type must be " ++ content_type)

/-- The instance a found row is loaded into. -/
def rowToProducts (r : Row) : Products :=
  ⟨some r.id, r.name, r.description, r.price⟩

/-- Strip leading and trailing spaces from a character list. -/
def stripSpaces (cs : List Char) : List Char :=
  ((cs.dropWhile (fun c => c == ' ')).reverse.dropWhile (fun c => c == ' ')).reverse

/-- The request mimetype: the `Content-Type` header value up to any `;`
parameters, surrounding spaces stripped (empty when the header is
absent). -/
def requestMimetype (req : HttpRequest) : String :=
  match req.headers.lookup "Content-Type" with
  | none => ""
  | some v => String.mk (stripSpaces (v.data.takeWhile (fun c => !(c == ';'))))

/-- Flask's `request.is_json`: the request mimetype is `application/json`
or a `+json` suffix type. -/
def is_json (req : HttpRequest) : Bool :=
  requestMimetype req == "application/json"
    || List.isSuffixOf "+json".data (requestMimetype req).data

/-- Flask's `request.get_json()`: when the mimetype is not JSON the
framework refuses to parse and raises `UnsupportedMediaType` (415, with
Flask's message); otherwise it yields the decoded body. -/
def get_json (req : HttpRequest) : Except (Nat × String) PyVal :=
  if is_json req then .ok req.jsonBody
  else
    .error (415,
      "Did not attempt to load JSON data because the request Content-Type was not 'application/json'.")

/-- `POST /products`: content-type check first, then
`Products().deserialize(request.get_json())`, then `create`; 201 with the
serialized product and a `Location` header on success. -/
def create_products (req : HttpRequest) (db : DB) : RouteOutcome × DB :=
  match check_content_type req "application/json" with
  | some (st, msg) => (.httpAbort st msg, db)
  | none =>
    match get_json req with
    | .error (st, msg) => (.httpAbort st msg, db)
    | .ok body =>
    match Products.deserialize {} body with
    | .error (e, _) => (.exn e, db)
    | .ok p =>
      match p.create db with
      | .error (e, _, db') => (.exn e, db')
      | .ok (p', db') =>
        (.ok 201 p'.serialize
          (some ("/products/" ++ (match p'.id with
            | some i => toString i
            | none => "None"))), db')

/-- `GET /products/<id>`: 404 with the id in the message when absent,
otherwise 200 with the serialized product. -/
def get_products (products_id : Int) (db : DB) : RouteOutcome :=
  match Products.find db products_id with
  | none => .httpAbort 404 ("Product with id " ++ toString products_id ++ " not found.")
  | some row => .ok 200 (rowToProducts row).serialize none

/-- `PUT /products/<id>`: `find` first (404 when absent), then
`request.get_json()` (whose framework media-type gate fires here, at
body-parsing time), then deserialize into the found instance and
`update`; 200 with the serialized product on success.  The handler itself
calls no `check_content_type`. -/
def update_products (req : HttpRequest) (products_id : Int) (db : DB) :
    RouteOutcome × DB :=
  match Products.find db products_id with
  | none =>
    (.httpAbort 404 ("Product with id " ++ toString products_id ++ " not found."), db)
  | some row =>
    match get_json req with
    | .error (st, msg) => (.httpAbort st msg, db)
    | .ok body =>
    match (rowToProducts row).deserialize body with
    | .error (e, _) => (.exn e, db)
    | .ok p =>
      match p.update db with
      | .error (e, db') => (.exn e, db')
      | .ok db' => (.ok 200 p.serialize none, db')

/-- `DELETE /products/<id>`: `find` first (404 when absent), then
`delete`; 200 with an empty body on success. -/
def delete_products (products_id : Int) (db : DB) : RouteOutcome × DB :=
  match Products.find db products_id with
  | none =>
    (.httpAbort 404 ("Product with id " ++ toString products_id ++ " not found."), db)
  | some row =>
    match (rowToProducts row).delete db with
    | .error (e, db') => (.exn e, db')
    | .ok db' => (.ok 200 (.pyStr "") none, db')

/-! ### Concrete sample data -/

/-- A well-formed request payload. -/
def widgetDict : PyVal :=
  .pyDict [("name", .pyStr "Widget"), ("description", .pyStr "A widget"),
           ("price", .pyStr "19.99")]

/-- A payload whose `price` string is not a decimal literal. -/
def badPriceDict : PyVal :=
  .pyDict [("name", .pyStr "Widget"), ("description", .pyStr "A widget"),
           ("price", .pyStr "abc")]

/-- A payload lacking the `price` key. -/
def noPriceDict : PyVal :=
  .pyDict [("name", .pyStr "Widget"), ("description", .pyStr "A widget")]

/-- A payload whose `price` is the JSON number `19.99`: the binary64
value nearest to 19.99, whose exact value is
`5626684784446013 * 2 ^ (-48)`. -/
def floatPriceDict : PyVal :=
  .pyDict [("name", .pyStr "Widget"), ("description", .pyStr "A widget"),
           ("price", .pyFloat 5626684784446013 (-48))]

/-- A persisted sample row. -/
def widgetRow : Row := ⟨1, .pyStr "Widget", .pyStr "A widget", some ⟨1999, -2⟩⟩

/-- An empty store. -/
def dbEmpty : DB := ⟨[], 1⟩

/-- A store holding the sample row. -/
def dbOne : DB := ⟨[widgetRow], 2⟩

/-- A valid in-memory instance. -/
def widgetProducts : Products :=
  { name := .pyStr "Widget", description := .pyStr "A widget", price := some ⟨1999, -2⟩ }

/-- An instance whose name exceeds the 63-character column bound. -/
def overlongProducts : Products :=
  { name := .pyStr (String.mk (List.replicate 100 'x')),
    description := .pyStr "A widget", price := some ⟨1999, -2⟩ }

/-- An update payload. -/
def updateDict : PyVal :=
  .pyDict [("name", .pyStr "Widget2"), ("description", .pyStr "d2"),
           ("price", .pyStr "250.00")]

/-- A request with no headers at all (no `Content-Type`). -/
def reqNoHeaders : HttpRequest := ⟨[], widgetDict⟩

/-- An XML-content-type request carrying a valid JSON body. -/
def reqXml : HttpRequest := ⟨[("Content-Type", "application/xml")], updateDict⟩

/-! ### Digit-string lemmas -/

theorem digitVal_digitChar {d : Nat} (h : d < 10) : digitVal (digitChar d) = d := by
  interval_cases d <;> decide

theorem isDigitChar_digitChar {d : Nat} (h : d < 10) : isDigitChar (digitChar d) = true := by
  interval_cases d <;> decide

theorem natDigitChars_all_digits (n : Nat) :
    ∀ c ∈ natDigitChars n, isDigitChar c = true := by
  intro c hc
  unfold natDigitChars at hc
  split at hc
  · rw [List.mem_singleton] at hc
    subst hc; decide
  · rcases List.mem_map.1 hc with ⟨d, hd, rfl⟩
    exact isDigitChar_digitChar (Nat.digits_lt_base (by norm_num) (List.mem_reverse.1 hd))

theorem natDigitChars_ne_nil (n : Nat) : natDigitChars n ≠ [] := by
  unfold natDigitChars
  split
  · simp
  · next h =>
    simp only [ne_eq, List.map_eq_nil_iff, List.reverse_eq_nil_iff]
    exact Nat.digits_ne_nil_iff_ne_zero.2 h

theorem natDigitChars_length_pos (n : Nat) : 0 < (natDigitChars n).length :=
  List.length_pos.2 (natDigitChars_ne_nil n)

theorem foldl_digitChars (l : List Nat) (h : ∀ d ∈ l, d < 10) (a : Nat) :
    List.foldl (fun x c => 10 * x + digitVal c) a (l.reverse.map digitChar)
      = a * 10 ^ l.length + Nat.ofDigits 10 l := by
  induction l generalizing a with
  | nil => simp
  | cons d t ih =>
    have hd : d < 10 := h d (List.mem_cons_self d t)
    have ht : ∀ x ∈ t, x < 10 := fun x hx => h x (List.mem_cons_of_mem d hx)
    simp only [List.reverse_cons, List.map_append, List.map_cons, List.map_nil,
      List.foldl_append, List.foldl_cons, List.foldl_nil, ih ht a,
      digitVal_digitChar hd, Nat.ofDigits_cons, List.length_cons]
    ring

theorem digitsVal_natDigitChars (n : Nat) : digitsVal (natDigitChars n) = n := by
  unfold digitsVal natDigitChars
  split
  · next h => subst h; decide
  · rw [foldl_digitChars _ (fun d hd => Nat.digits_lt_base (by norm_num) hd) 0]
    simp [Nat.ofDigits_digits]

theorem digitsVal_replicate_zero (k : Nat) (cs : List Char) :
    digitsVal (List.replicate k '0' ++ cs) = digitsVal cs := by
  induction k with
  | zero => rfl
  | succ k ih => simpa [digitsVal, List.replicate_succ] using ih

theorem spanDigits_append (ds rest : List Char)
    (h : ∀ c ∈ ds, isDigitChar c = true)
    (h2 : ∀ c, rest.head? = some c → isDigitChar c = false) :
    spanDigits (ds ++ rest) = (ds, rest) := by
  induction ds with
  | nil =>
    cases rest with
    | nil => rfl
    | cons c cs =>
      simp only [List.nil_append, spanDigits, h2 c rfl]
      rfl
  | cons c cs ih =>
    have hc : isDigitChar c = true := h c (List.mem_cons_self c cs)
    have hcs : ∀ x ∈ cs, isDigitChar x = true := fun x hx => h x (List.mem_cons_of_mem c hx)
    simp [spanDigits, hc, ih hcs]

/-! ### Parse/print round-trip -/

theorem parseUnsigned_plain (ip fp : List Char)
    (hip : ∀ c ∈ ip, isDigitChar c = true)
    (hfp : ∀ c ∈ fp, isDigitChar c = true) (hne : fp ≠ []) :
    parseUnsigned (ip ++ '.' :: fp)
      = some ⟨(digitsVal (ip ++ fp) : Int), -(fp.length : Int)⟩ := by
  have h1 : spanDigits (ip ++ '.' :: fp) = (ip, '.' :: fp) :=
    spanDigits_append ip ('.' :: fp) hip (by intro c hc; cases hc; decide)
  have h2 : spanDigits fp = (fp, []) := by
    have := spanDigits_append fp [] hfp (by intro c hc; cases hc)
    simpa using this
  have h3 : (ip ++ fp).isEmpty = false := by
    cases hfe : ip ++ fp with
    | nil => exact absurd (List.append_eq_nil.1 hfe).2 hne
    | cons a l => rfl
  simp only [parseUnsigned, h1]
  simp only [parseAfterPoint, h2, h3]
  simp

theorem parseUnsigned_nil : parseUnsigned [] = none := rfl

theorem parseDecimal_mk_neg_body (m : Nat) (body : List Char)
    (hbody : parseUnsigned body = some ⟨(m : Int), -2⟩) :
    parseDecimal (String.mk ('-' :: body)) = some ⟨-(m : Int), -2⟩ := by
  simp [parseDecimal, hbody]

theorem parseDecimal_mk_digit_head (c : Char) (cs : List Char)
    (h : isDigitChar c = true) :
    parseDecimal (String.mk (c :: cs)) = parseUnsigned (c :: cs) := by
  have hminus : c ≠ '-' := by
    intro hc; subst hc; simp [isDigitChar] at h
  have hplus : c ≠ '+' := by
    intro hc; subst hc; simp [isDigitChar] at h
  simp [parseDecimal, hminus, hplus]

theorem parseDecimal_decToString (d : Dec) (h : d.exp = -2) :
    parseDecimal (decToString d) = some d := by
  obtain ⟨man, exp⟩ := d
  simp only [Dec.exp] at h
  subst h
  have hdig : ∀ c ∈ natDigitChars man.natAbs, isDigitChar c = true :=
    natDigitChars_all_digits man.natAbs
  have hlen : 0 < (natDigitChars man.natAbs).length :=
    natDigitChars_length_pos man.natAbs
  have hval : digitsVal (natDigitChars man.natAbs) = man.natAbs :=
    digitsVal_natDigitChars man.natAbs
  set ds := natDigitChars man.natAbs with hds
  have hcond : (-2 : Int) ≤ 0 ∧ (-6 : Int) < -2 + (ds.length : Int) :=
    ⟨by norm_num, by omega⟩
  have hne0 : ¬ ((-2 : Int) = 0) := by norm_num
  -- the printed character list, by case on where the decimal point falls
  have hbody : ∃ body : List Char,
      decToString ⟨man, -2⟩ = String.mk ((if man < 0 then ['-'] else []) ++ body) ∧
      (∃ c cs, body = c :: cs ∧ isDigitChar c = true) ∧
      parseUnsigned body = some ⟨(man.natAbs : Int), -2⟩ := by
    by_cases hsplit : (0 : Int) < -2 + (ds.length : Int)
    · -- at least three digits: point goes inside the digit string
      have hk : ((-2 : Int) + (ds.length : Int)).toNat = ds.length - 2 := by omega
      have h2len : 2 < ds.length := by omega
      refine ⟨ds.take (ds.length - 2) ++ '.' :: ds.drop (ds.length - 2), ?_, ?_, ?_⟩
      · simp only [decToString, ← hds, if_pos hcond, if_neg hne0, if_pos hsplit, hk]
      · have htne : ds.take (ds.length - 2) ≠ [] := by
          have : (ds.take (ds.length - 2)).length = ds.length - 2 := by
            rw [List.length_take]; omega
          intro hnil
          rw [hnil] at this
          simp at this
          omega
        cases htk : ds.take (ds.length - 2) with
        | nil => exact absurd htk htne
        | cons c cs =>
          refine ⟨c, cs ++ '.' :: ds.drop (ds.length - 2), by simp [htk], ?_⟩
          exact hdig c (List.take_subset _ _ (htk ▸ List.mem_cons_self c cs))
      · have hdrop : (ds.drop (ds.length - 2)).length = 2 := by
          rw [List.length_drop]; omega
        have hdropne : ds.drop (ds.length - 2) ≠ [] := by
          intro hnil; rw [hnil] at hdrop; simp at hdrop
        rw [parseUnsigned_plain _ _ (fun c hc => hdig c (List.take_subset _ _ hc))
            (fun c hc => hdig c (List.drop_subset _ _ hc)) hdropne]
        rw [List.take_append_drop, hval, hdrop]
        norm_num
    · -- at most two digits: a leading "0." plus padding zeros
      have hk : (-((-2 : Int) + (ds.length : Int))).toNat = 2 - ds.length := by omega
      have h2len : ds.length ≤ 2 := by omega
      refine ⟨'0' :: '.' :: (List.replicate (2 - ds.length) '0' ++ ds), ?_, ?_, ?_⟩
      · simp only [decToString, ← hds, if_pos hcond, if_neg hne0, if_neg hsplit, hk]
      · exact ⟨'0', _, rfl, by decide⟩
      · have hfp : ∀ c ∈ List.replicate (2 - ds.length) '0' ++ ds, isDigitChar c = true := by
          intro c hc
          rcases List.mem_append.1 hc with hrep | hmem
          · rw [List.eq_of_mem_replicate hrep]; decide
          · exact hdig c hmem
        have hfpne : List.replicate (2 - ds.length) '0' ++ ds ≠ [] := by
          intro hnil
          exact natDigitChars_ne_nil man.natAbs (hds ▸ (List.append_eq_nil.1 hnil).2)
        have := parseUnsigned_plain ['0'] (List.replicate (2 - ds.length) '0' ++ ds)
          (by intro c hc; rw [List.mem_singleton] at hc; subst hc; decide) hfp hfpne
        simp only [List.singleton_append] at this
        rw [this]
        have hv : digitsVal ('0' :: (List.replicate (2 - ds.length) '0' ++ ds))
            = man.natAbs := by
          have : ('0' :: (List.replicate (2 - ds.length) '0' ++ ds))
              = List.replicate (2 - ds.length + 1) '0' ++ ds := by
            rw [List.replicate_succ]
            simp
          rw [this, digitsVal_replicate_zero, hval]
        have hl : ((List.replicate (2 - ds.length) '0' ++ ds).length : Int) = 2 := by
          rw [List.length_append, List.length_replicate]
          omega
        rw [hv, hl]
  obtain ⟨body, hprint, ⟨c, cs, hcons, hcdig⟩, hparse⟩ := hbody
  rw [hprint]
  by_cases hneg : man < 0
  · rw [if_pos hneg, List.singleton_append,
      parseDecimal_mk_neg_body man.natAbs body hparse]
    have : -(man.natAbs : Int) = man := by omega
    rw [this]
  · rw [if_neg hneg, List.nil_append, hcons,
      parseDecimal_mk_digit_head c cs hcdig, ← hcons, hparse]
    have : (man.natAbs : Int) = man := by omega
    rw [this]

/-! ### Deserialize lemmas and claims -/

theorem deserialize_ok_of_lookups (self : Products) (entries : List (String × PyVal))
    (nv dv pv : PyVal) (dec : Dec)
    (h1 : entries.lookup "name" = some nv)
    (h2 : entries.lookup "description" = some dv)
    (h3 : entries.lookup "price" = some pv)
    (h4 : pyDecimal pv = .ok dec) :
    Products.deserialize self (.pyDict entries)
      = .ok { self with name := nv, description := dv, price := some dec } := by
  simp [Products.deserialize, getItem, h1, h2, h3, h4]

/-- Claim C3: for every valid `Products` instance (price an exact decimal
with two fractional digits, as the `Numeric(10, 2)` column holds),
`deserialize(serialize(instance))` succeeds and reproduces the field
values exactly; the price comes back as the identical exact decimal, so
in particular its exact rational value is preserved (no string or binary
float comparison is involved). -/
theorem serialize_deserialize_roundtrip (self other : Products) (d : Dec)
    (hp : self.price = some d) (hexp : d.exp = -2) :
    Products.deserialize other (Products.serialize self)
      = .ok { other with name := self.name, description := self.description,
                         price := some d } := by
  apply deserialize_ok_of_lookups
  · rfl
  · rfl
  · rfl
  · show pyDecimal (.pyStr (priceStr self.price)) = Except.ok d
    rw [hp]
    show pyDecimal (.pyStr (decToString d)) = Except.ok d
    simp [pyDecimal, parseDecimal_decToString d hexp]

/-- Witness for C3 at a concrete instance with price `19.99`. -/
theorem serialize_deserialize_roundtrip_witness :
    Products.deserialize {} (Products.serialize widgetProducts)
      = .ok { name := .pyStr "Widget", description := .pyStr "A widget",
              price := some ⟨1999, -2⟩ } :=
  serialize_deserialize_roundtrip widgetProducts {} ⟨1999, -2⟩ rfl rfl

/-- Claim C1 is false as stated: on a payload whose `price` is the
string `"abc"`, `deserialize` raises the decimal module's
`InvalidOperation` — which none of the `except` clauses catch — and not a
`DataValidationError`. -/
theorem deserialize_bad_price_not_dve :
    Products.deserialize {} badPriceDict
      = .error (.invalidOperation,
          { name := .pyStr "Widget", description := .pyStr "A widget" }) ∧
    PyError.invalidOperation.isDataValidationError = false := ⟨rfl, rfl⟩

/-- Claim C1 (amended): when the `price` value is a string that does not
parse as a decimal literal, `deserialize` fails with the uncaught
`InvalidOperation` from the `Decimal` constructor, not with
`DataValidationError` (only `AttributeError`, `KeyError` and `TypeError`
are converted). -/
theorem deserialize_unparseable_price_invalid_operation
    (self : Products) (entries : List (String × PyVal)) (nv dv : PyVal) (s : String)
    (h1 : entries.lookup "name" = some nv)
    (h2 : entries.lookup "description" = some dv)
    (h3 : entries.lookup "price" = some (.pyStr s))
    (h4 : parseDecimal s = none) :
    Products.deserialize self (.pyDict entries)
      = .error (.invalidOperation, { self with name := nv, description := dv }) := by
  simp [Products.deserialize, getItem, h1, h2, h3, pyDecimal, h4, deserializeExcept]

/-- Witness for the amended C1 at the `"abc"` payload. -/
theorem deserialize_unparseable_price_witness :
    Products.deserialize {} badPriceDict
      = .error (.invalidOperation,
          { name := .pyStr "Widget", description := .pyStr "A widget" }) :=
  deserialize_unparseable_price_invalid_operation {} _ _ _ "abc" rfl rfl rfl rfl

/-- Claim C7: `deserialize` on a non-mapping fails with a
`DataValidationError` whose message signals "body of request contained
bad or no data" (plus the type detail), and on a mapping lacking a
required key fails with a `DataValidationError` signalling
"missing <key>" for the first missing key in assignment order. -/
theorem deserialize_bad_data_and_missing_keys (self : Products) (data : PyVal) :
    ((∀ entries, data ≠ .pyDict entries) →
      ∃ m p, Products.deserialize self data
        = .error (.dataValidationError
            ("Invalid Products: body of request contained bad or no data " ++ m), p)) ∧
    (∀ entries, data = .pyDict entries →
      (entries.lookup "name" = none →
        Products.deserialize self data
          = .error (.dataValidationError "Invalid Products: missing name", self)) ∧
      (∀ nv, entries.lookup "name" = some nv →
        entries.lookup "description" = none →
        Products.deserialize self data
          = .error (.dataValidationError "Invalid Products: missing description",
              { self with name := nv })) ∧
      (∀ nv dv, entries.lookup "name" = some nv →
        entries.lookup "description" = some dv →
        entries.lookup "price" = none →
        Products.deserialize self data
          = .error (.dataValidationError "Invalid Products: missing price",
              { self with name := nv, description := dv }))) := by
  constructor
  · intro hnd
    cases data with
    | pyDict entries => exact absurd rfl (hnd entries)
    | pyNone => exact ⟨_, _, rfl⟩
    | pyStr s => exact ⟨_, _, rfl⟩
    | pyInt n => exact ⟨_, _, rfl⟩
    | pyFloat m e => exact ⟨_, _, rfl⟩
  · intro entries hdata
    subst hdata
    refine ⟨?_, ?_, ?_⟩
    · intro h1
      simp [Products.deserialize, getItem, h1, deserializeExcept]
    · intro nv h1 h2
      simp [Products.deserialize, getItem, h1, h2, deserializeExcept]
    · intro nv dv h1 h2 h3
      simp [Products.deserialize, getItem, h1, h2, h3, deserializeExcept]

/-- Witness for C7: a null body, an empty mapping, and a mapping missing
only `price`. -/
theorem deserialize_bad_data_and_missing_keys_witness :
    (∃ m p, Products.deserialize {} .pyNone
      = .error (.dataValidationError
          ("Invalid Products: body of request contained bad or no data " ++ m), p)) ∧
    Products.deserialize {} (.pyDict [])
      = .error (.dataValidationError "Invalid Products: missing name", {}) ∧
    Products.deserialize {} noPriceDict
      = .error (.dataValidationError "Invalid Products: missing price",
          { name := .pyStr "Widget", description := .pyStr "A widget" }) :=
  ⟨(deserialize_bad_data_and_missing_keys {} .pyNone).1
      (fun _ h => PyVal.noConfusion h),
   ((deserialize_bad_data_and_missing_keys {} (.pyDict [])).2 [] rfl).1 rfl,
   (((deserialize_bad_data_and_missing_keys {} noPriceDict).2
      [("name", .pyStr "Widget"), ("description", .pyStr "A widget")] rfl).2.2)
      _ _ rfl rfl rfl⟩

/-- Claim C9: `deserialize` is not atomic on failure — with valid `name`
and `description` but a missing or unparseable `price`, the failed call
leaves the instance's `name` and `description` already overwritten with
the mapping's values (fields are assigned in place in the order name,
description, price). -/
theorem deserialize_not_atomic (self : Products)
    (entries : List (String × PyVal)) (nv dv : PyVal)
    (h1 : entries.lookup "name" = some nv)
    (h2 : entries.lookup "description" = some dv)
    (h3 : entries.lookup "price" = none ∨
      ∃ s, entries.lookup "price" = some (.pyStr s) ∧ parseDecimal s = none) :
    ∃ e, Products.deserialize self (.pyDict entries)
        = .error (e, { self with name := nv, description := dv }) := by
  rcases h3 with h3 | ⟨s, h3, h4⟩
  · exact ⟨.dataValidationError "Invalid Products: missing price",
      by simp [Products.deserialize, getItem, h1, h2, h3, deserializeExcept]⟩
  · exact ⟨.invalidOperation,
      by simp [Products.deserialize, getItem, h1, h2, h3, pyDecimal, h4,
        deserializeExcept]⟩

/-- Witness for C9 at a payload missing `price`. -/
theorem deserialize_not_atomic_witness :
    ∃ e, Products.deserialize {} noPriceDict
        = .error (e, { name := .pyStr "Widget", description := .pyStr "A widget" }) :=
  deserialize_not_atomic {} _ _ _ rfl rfl (Or.inl rfl)

/-- Claim C10: a payload whose `price` is the JSON number `19.99`
(arriving as the binary64 float nearest to 19.99) is accepted by
`deserialize`, and the stored price is the exact decimal expansion of
that binary float — equal to `5626684784446013 / 2^48` and different
from the exact decimal `19.99` the client wrote. -/
theorem deserialize_float_price_exact_expansion :
    Products.deserialize {} floatPriceDict
      = .ok { name := .pyStr "Widget", description := .pyStr "A widget",
              price := some (floatToDec 5626684784446013 (-48)) } ∧
    floatToDec 5626684784446013 (-48)
      = ⟨19989999999999998436805981327779591083526611328125, -48⟩ ∧
    Dec.toRat ⟨19989999999999998436805981327779591083526611328125, -48⟩
      = floatVal 5626684784446013 (-48) ∧
    Dec.toRat ⟨19989999999999998436805981327779591083526611328125, -48⟩
      ≠ Dec.toRat ⟨1999, -2⟩ := by
  have ht48 : (48 : ℤ).toNat = 48 := rfl
  have ht2 : (2 : ℤ).toNat = 2 := rfl
  refine ⟨rfl, by decide, ?_, ?_⟩
  · norm_num [Dec.toRat, floatVal, ht48]
  · norm_num [Dec.toRat, ht48, ht2]

/-! ### Store-operation claims -/

/-- Claim C4: whenever `create`, `update` or `delete` fails, the store is
left unchanged (rollback), the in-memory instance is not left partially
applied by the call (for `create` only the deliberate `id = None` unset
has happened), and the error surfaced is always a `DataValidationError`
wrapping the store's message — the raw store error never escapes. -/
theorem mutators_rollback_and_wrap (self : Products) (db : DB) :
    (∀ e p' db', Products.create self db = .error (e, p', db') →
      db' = db ∧ p' = { self with id := none } ∧
      ∃ msg, storeCheck (Products.toRow { self with id := none } db.nextId) = some msg ∧
        e = .dataValidationError msg) ∧
    (∀ e db', Products.update self db = .error (e, db') →
      db' = db ∧ ∃ i msg, self.id = some i ∧
        storeCheck (Products.toRow self i) = some msg ∧
        e = .dataValidationError msg) ∧
    (∀ e db', Products.delete self db = .error (e, db') →
      db' = db ∧ ∃ msg, e = .dataValidationError msg) := by
  refine ⟨?_, ?_, ?_⟩
  · intro e p' db' hcall
    simp only [Products.create] at hcall
    cases hsc : storeCheck (Products.toRow { self with id := none } db.nextId) with
    | none => rw [hsc] at hcall; simp at hcall
    | some msg =>
      rw [hsc] at hcall
      simp only [Except.error.injEq, Prod.mk.injEq] at hcall
      obtain ⟨he, hp, hdb⟩ := hcall
      exact ⟨hdb.symm, hp.symm, msg, rfl, he.symm⟩
  · intro e db' hcall
    simp only [Products.update] at hcall
    cases hid : self.id with
    | none => rw [hid] at hcall; simp at hcall
    | some i =>
      rw [hid] at hcall
      simp only at hcall
      split at hcall
      · cases hsc : storeCheck (Products.toRow self i) with
        | none => rw [hsc] at hcall; simp at hcall
        | some msg =>
          rw [hsc] at hcall
          simp only [Except.error.injEq, Prod.mk.injEq] at hcall
          obtain ⟨he, hdb⟩ := hcall
          exact ⟨hdb.symm, i, msg, rfl, hsc, he.symm⟩
      · simp at hcall
  · intro e db' hcall
    simp only [Products.delete] at hcall
    cases hid : self.id with
    | none =>
      rw [hid] at hcall
      simp only [Except.error.injEq, Prod.mk.injEq] at hcall
      obtain ⟨he, hdb⟩ := hcall
      exact ⟨hdb.symm, _, he.symm⟩
    | some i => rw [hid] at hcall; simp at hcall

/-- Witness for C4: creating an instance whose name exceeds the column
bound fails with the wrapped store error and leaves the empty store
unchanged. -/
theorem mutators_rollback_and_wrap_witness :
    dbEmpty = dbEmpty ∧
    { overlongProducts with id := none } = { overlongProducts with id := none } ∧
    ∃ msg, storeCheck (Products.toRow { overlongProducts with id := none } dbEmpty.nextId)
        = some msg ∧
      PyError.dataValidationError "value too long for type character varying(63)"
        = .dataValidationError msg :=
  (mutators_rollback_and_wrap overlongProducts dbEmpty).1 _ _ _ rfl

/-- Claim C5: `create` forces `id` to unset before the insert (a
caller-supplied id is ignored), and on success the instance's `id` is the
store's generated key: non-null and distinct from the id of every row
that was already persisted. -/
theorem create_forces_unset_id_and_assigns_key (self : Products) (db : DB)
    (hfresh : ∀ r ∈ db.rows, r.id < db.nextId) :
    (∀ j : Option Int, Products.create { self with id := j } db = Products.create self db) ∧
    (∀ p' db', Products.create self db = .ok (p', db') →
      p'.id = some db.nextId ∧ p'.id ≠ none ∧
      db'.rows = db.rows ++ [Products.toRow { self with id := none } db.nextId] ∧
      ∀ r ∈ db.rows, r.id ≠ db.nextId) := by
  constructor
  · intro j; rfl
  · intro p' db' hcall
    simp only [Products.create] at hcall
    cases hsc : storeCheck (Products.toRow { self with id := none } db.nextId) with
    | some msg => rw [hsc] at hcall; simp at hcall
    | none =>
      rw [hsc] at hcall
      simp only [Except.ok.injEq, Prod.mk.injEq] at hcall
      obtain ⟨hp, hdb⟩ := hcall
      refine ⟨?_, ?_, ?_, ?_⟩
      · rw [← hp]
      · rw [← hp]; simp
      · rw [← hdb]
      · intro r hr
        have := hfresh r hr
        omega

/-- Witness for C5 on a fresh store. -/
theorem create_forces_unset_id_witness :
    (Products.create { widgetProducts with id := some 99 } dbEmpty
      = Products.create widgetProducts dbEmpty) ∧
    ∃ p' db', Products.create widgetProducts dbEmpty = .ok (p', db') ∧
      p'.id = some dbEmpty.nextId ∧ p'.id ≠ none :=
  ⟨(create_forces_unset_id_and_assigns_key widgetProducts dbEmpty (by intro r hr; cases hr)).1
      (some 99),
   by
    have h := (create_forces_unset_id_and_assigns_key widgetProducts dbEmpty
      (by intro r hr; cases hr)).2 _ _ rfl
    exact ⟨_, _, rfl, h.1, h.2.1⟩⟩

/-- Claim C6: `find_by_name` returns exactly the persisted rows whose
`name` equals the argument under case-sensitive exact string comparison,
and an empty list (not a failure) when none match. -/
theorem find_by_name_exact (db : DB) (n : String) :
    (∀ r, r ∈ Products.find_by_name db n ↔ r ∈ db.rows ∧ r.name = .pyStr n) ∧
    ((∀ r ∈ db.rows, r.name ≠ .pyStr n) → Products.find_by_name db n = []) := by
  have hmatch : ∀ v : PyVal, nameMatches v n = true ↔ v = .pyStr n := by
    intro v
    cases v <;> simp [nameMatches]
  constructor
  · intro r
    rw [Products.find_by_name, List.mem_filter, hmatch]
  · intro h
    rw [Products.find_by_name, List.filter_eq_nil_iff]
    intro r hr
    rw [hmatch]
    exact h r hr

/-- Witness for C6: exact match retrieves the row, a case-variant
retrieves nothing. -/
theorem find_by_name_exact_witness :
    (widgetRow ∈ Products.find_by_name dbOne "Widget"
      ↔ widgetRow ∈ dbOne.rows ∧ widgetRow.name = .pyStr "Widget") ∧
    Products.find_by_name dbOne "widget" = [] :=
  ⟨(find_by_name_exact dbOne "Widget").1 widgetRow,
   (find_by_name_exact dbOne "widget").2 (by
      intro r hr
      have hr2 : r ∈ [widgetRow] := hr
      rw [List.mem_singleton] at hr2
      subst hr2
      intro heq
      exact absurd (PyVal.pyStr.inj heq) (by decide))⟩

/-! ### Route-layer claims -/

/-- Claim C2 is false as stated: a PUT with the `Content-Type` header
missing entirely, sent to an absent id, yields 404 — not 415 — because
`update_products` calls no `check_content_type` and the find-by-id check
runs before the body (and hence its media type) is ever touched. -/
theorem put_ignores_content_type_counterexample :
    (update_products reqNoHeaders 1 dbEmpty).1
      = .httpAbort 404 "Product with id 1 not found." := rfl

/-- Claim C2 (amended): `POST /products` enforces the content type via
`check_content_type` before any body handling — a missing or mismatched
`Content-Type` yields 415 regardless of the body.  `PUT /products/<id>`
performs no content-type check of its own and the check is not before
body parsing: the find-by-id check runs first, so a PUT to an absent id
yields 404 whatever the `Content-Type`; on an existing id a non-JSON
`Content-Type` is rejected with 415 only when the framework's
`get_json` refuses to parse the body. -/
theorem content_type_gate (req : HttpRequest) (i : Int) (db : DB) :
    (req.headers.lookup "Content-Type" ≠ some "application/json" →
      create_products req db
        = (.httpAbort 415 "Content-Type must be application/json", db)) ∧
    (Products.find db i = none →
      update_products req i db
        = (.httpAbort 404 ("Product with id " ++ toString i ++ " not found."), db)) ∧
    (∀ r, Products.find db i = some r → is_json req = false →
      update_products req i db
        = (.httpAbort 415
            "Did not attempt to load JSON data because the request Content-Type was not 'application/json'.",
           db)) := by
  refine ⟨?_, ?_, ?_⟩
  · intro hbad
    rw [create_products, check_content_type]
    cases hl : req.headers.lookup "Content-Type" with
    | none => rfl
    | some v =>
      rw [hl] at hbad
      have hv : ¬ (v = "application/json") := fun h => hbad (by rw [h])
      simp [hv]
  · intro hf
    rw [update_products, hf]
  · intro r hf hmt
    rw [update_products, hf, get_json, hmt]
    rfl

/-- Witness for the amended C2: POST with no `Content-Type` aborts 415;
PUT with no `Content-Type` to an absent id aborts 404; PUT with
`Content-Type: application/xml` to an existing id aborts 415 from the
body-parsing step. -/
theorem content_type_gate_witness :
    create_products reqNoHeaders dbEmpty
      = (.httpAbort 415 "Content-Type must be application/json", dbEmpty) ∧
    update_products reqNoHeaders 1 dbEmpty
      = (.httpAbort 404 "Product with id 1 not found.", dbEmpty) ∧
    update_products reqXml 1 dbOne
      = (.httpAbort 415
          "Did not attempt to load JSON data because the request Content-Type was not 'application/json'.",
         dbOne) :=
  ⟨(content_type_gate reqNoHeaders 1 dbEmpty).1 (by intro h; cases h),
   (content_type_gate reqNoHeaders 1 dbEmpty).2.1 rfl,
   (content_type_gate reqXml 1 dbOne).2.2 widgetRow rfl (by decide)⟩

/-- Claim C8: `DELETE /products/<id>` answers 404 with the message
`"Product with id {id} not found."` when the id is absent, and when it is
present deletes the row and answers 200 with an empty body (the deleted
id is subsequently not found). -/
theorem delete_route_absent_404_present_200 (i : Int) (db : DB) :
    (Products.find db i = none →
      delete_products i db
        = (.httpAbort 404 ("Product with id " ++ toString i ++ " not found."), db)) ∧
    (∀ r, Products.find db i = some r →
      delete_products i db
        = (.ok 200 (.pyStr "") none,
           { rows := db.rows.filter (fun row => row.id ≠ i), nextId := db.nextId }) ∧
      Products.find { rows := db.rows.filter (fun row => row.id ≠ i),
                      nextId := db.nextId } i = none) := by
  constructor
  · intro hf
    rw [delete_products, hf]
  · intro r hf
    have hid : r.id = i := by
      have := List.find?_some hf
      exact of_decide_eq_true this
    constructor
    · rw [delete_products, hf]
      simp only [Products.delete, rowToProducts, hid]
    · rw [Products.find, List.find?_eq_none]
      intro x hx
      have hx2 := (List.mem_filter.1 hx).2
      have hne : x.id ≠ i := of_decide_eq_true hx2
      simp [hne]

/-- Witness for C8: deleting id 7 (absent) aborts 404; deleting id 1
(present) empties the store and answers 200 with an empty body. -/
theorem delete_route_witness :
    delete_products 7 dbOne = (.httpAbort 404 "Product with id 7 not found.", dbOne) ∧
    (delete_products 1 dbOne
        = (.ok 200 (.pyStr "") none,
           { rows := dbOne.rows.filter (fun row => row.id ≠ 1), nextId := dbOne.nextId }) ∧
      Products.find { rows := dbOne.rows.filter (fun row => row.id ≠ 1),
                      nextId := dbOne.nextId } 1 = none) :=
  ⟨(delete_route_absent_404_present_200 7 dbOne).1 rfl,
   (delete_route_absent_404_present_200 1 dbOne).2 widgetRow rfl⟩

end ProductsService
